import Mathlib

/-!
Shallow embedding of `src/opencl_matrix_add.cpp`, an OpenCL host program that
adds two integer vectors on a compute device.  Pure fragments of the C code
become Lean functions; results of external OpenCL API calls become explicit
oracle parameters; the `int -> size_t` conversion is modelled with `% 2^64`.
The device kernel source file `vector_ops_ocl.cl` is referenced by the host
program but is not part of the repository sources, so it is modelled from the
specification (see `vector_add_ocl`).
-/

namespace OpenCLMatrixAdd

/-- Constant `CL_SUCCESS` of the OpenCL headers. -/
def CL_SUCCESS : Int := 0

/-- Constant `CL_DEVICE_NOT_FOUND` of the OpenCL headers. -/
def CL_DEVICE_NOT_FOUND : Int := -1

/-- Constant `CL_INVALID_MEM_OBJECT` of the OpenCL headers. -/
def CL_INVALID_MEM_OBJECT : Int := -38

/-- Constant `CL_MEM_OBJECT_ALLOCATION_FAILURE` of the OpenCL headers. -/
def CL_MEM_OBJECT_ALLOCATION_FAILURE : Int := -4

/-- Value of `sizeof(int)` on the target platform. -/
def sizeof_int : Nat := 4

/-- Conversion of a C `int` value to `size_t` (unsigned 64-bit), as performed
implicitly by `SZ * sizeof(int)` and `(size_t)SZ` in the source. -/
def toSizeT (x : Int) : Nat := (x % (2 : Int) ^ 64).toNat

/-- Byte size passed to `clCreateBuffer` for each device buffer in
`setup_kernel_memory`: the C expression `SZ * sizeof(int)` evaluated in
`size_t` arithmetic. -/
def bufferByteSize (sz : Int) : Nat := (toSizeT sz * sizeof_int) % 2 ^ 64

/-- Byte count passed to `malloc` in `init`: the C expression
`sizeof(int) * size` evaluated in `size_t` arithmetic. -/
def hostAllocBytes (sz : Int) : Nat := (sizeof_int * toSizeT sz) % 2 ^ 64

/-- Modelled from the spec: the device kernel source `vector_ops_ocl.cl`
(entry point `vector_add_ocl`) is referenced at `main` line 46 but is not in
the repository sources.  The spec states that the entry point performs, for
each index i in [0, N): `out[i] = a[i] + b[i]`. -/
def vector_add_ocl (a b : List Int) (n : Nat) : List Int :=
  (List.range n).map fun i => a.getD i 0 + b.getD i 0

/-- The computation bracketed by the timing calls in `main` lines 50 to 57:
host vectors already uploaded to the device buffers (`clEnqueueWriteBuffer`
copies), kernel dispatch over `n` work items plus the completion wait
(`clEnqueueNDRangeKernel`, `clWaitForEvents`), then the blocking device to
host readback (`clEnqueueReadBuffer`) into the host output vector. -/
def computePhase (A B : List Int) (n : Nat) : List Int :=
  let bufV1 := A
  let bufV2 := B
  let bufV_out := vector_add_ocl bufV1 bufV2 n
  bufV_out

/-- One item of console output produced by `print`. -/
inductive PrintItem
  | elem (x : Int)
  | ellipsis
deriving DecidableEq

/-- Embedding of `print` (source lines 77 to 96): the sequence of vector
elements and ellipsis markers written to the console for one vector.  The
`PRINT` macro is 1, so the early return of the `PRINT == 0` branch never
fires.  Out of range reads are modelled with `getD` default 0; in `main` the
function is only applied with `size` equal to the vector length. -/
def print (A : List Int) (size : Int) : List PrintItem :=
  if 15 < size then
    ((List.range 5).map fun i => PrintItem.elem (A.getD i 0))
      ++ [PrintItem.ellipsis]
      ++ ((List.range 5).map fun (i : Nat) =>
            PrintItem.elem (A.getD (size - 5 + (i : Int)).toNat 0))
  else
    (List.range size.toNat).map fun i => PrintItem.elem (A.getD i 0)

theorem range_map_getD_take (A : List Int) (k : Nat) (hk : k ≤ A.length) :
    (List.range k).map (fun i => PrintItem.elem (A.getD i 0))
      = (A.take k).map PrintItem.elem := by
  apply List.ext_getElem
  · simp [Nat.min_eq_left hk]
  · intro i h1 h2
    have hik : i < k := by simpa using h1
    have hia : i < A.length := lt_of_lt_of_le hik hk
    simp [List.getElem_map, List.getElem_range, List.getD_eq_getElem?_getD,
      List.getElem?_eq_getElem hia, List.getElem_take]

theorem range_map_getD_drop (A : List Int) (k : Nat) (hk : k ≤ A.length) :
    (List.range k).map (fun i => PrintItem.elem (A.getD (A.length - k + i) 0))
      = (A.drop (A.length - k)).map PrintItem.elem := by
  apply List.ext_getElem
  · simp only [List.length_map, List.length_range, List.length_drop]
    omega
  · intro i h1 h2
    have hik : i < k := by simpa using h1
    have hia : A.length - k + i < A.length := by omega
    simp [List.getElem_map, List.getElem_range, List.getD_eq_getElem?_getD,
      List.getElem?_eq_getElem hia, List.getElem_drop]

/-- The observable host-side events of `main`, in the order the source emits
them (source lines 31 to 65). -/
inductive Ev
  | initCall
  | printV1
  | printV2
  | setupCtx
  | setupMem
  | copyArgs
  | timerStart
  | dispatch
  | waitEv
  | readback
  | printOut
  | timerStop
  | printTime
  | freeMem
deriving DecidableEq

/-- The event trace of a complete run of `main` (source lines 31 to 65):
three `init` calls, printing of the two input vectors, OpenCL setup, buffer
setup, argument binding, the timer start, kernel dispatch, completion wait,
readback, printing of the output vector, the timer stop, the elapsed time
printout, and teardown. -/
def mainTrace : List Ev :=
  [Ev.initCall, Ev.initCall, Ev.initCall, Ev.printV1, Ev.printV2,
   Ev.setupCtx, Ev.setupMem, Ev.copyArgs,
   Ev.timerStart, Ev.dispatch, Ev.waitEv, Ev.readback, Ev.printOut,
   Ev.timerStop, Ev.printTime, Ev.freeMem]

/-- Whether an event writes to the console. -/
def isPrintEvent : Ev → Bool
  | Ev.printV1 => true
  | Ev.printV2 => true
  | Ev.printOut => true
  | Ev.printTime => true
  | _ => false

/-- Whether an event is part of host-side setup (initialization, OpenCL
context and queue setup, buffer setup, argument binding). -/
def isSetupEvent : Ev → Bool
  | Ev.initCall => true
  | Ev.setupCtx => true
  | Ev.setupMem => true
  | Ev.copyArgs => true
  | _ => false

/-- The events that lie strictly between the `timerStart` and `timerStop`
events of a trace: the interval measured by the reported elapsed time. -/
def timedSegment (t : List Ev) : List Ev :=
  ((t.dropWhile (fun e => e ≠ Ev.timerStart)).drop 1).takeWhile
    (fun e => e ≠ Ev.timerStop)

/-- The platform-layer API calls `create_device` can make, in order. -/
inductive ApiCall
  | getPlatformIDs
  | getDeviceIDsGPU
  | getDeviceIDsCPU
deriving DecidableEq

/-- Oracle for the platform-layer results seen by `create_device`. -/
structure DeviceOracle where
  platformErr : Int
  gpuErr : Int
  cpuErr : Int

/-- Outcome of `create_device`: the API calls issued in order, whether the
process exited with code 1, and whether a device handle was returned. -/
structure DeviceTrace where
  calls : List ApiCall
  exited : Bool
  gotDevice : Bool
deriving DecidableEq

/-- Embedding of `create_device` (source lines 214 to 236): query one
platform (exit 1 on failure), request a GPU device; exactly when that call
returns `CL_DEVICE_NOT_FOUND`, request a CPU device; if the final `err` is
negative, exit 1, otherwise return the device. -/
def create_device (o : DeviceOracle) : DeviceTrace :=
  if o.platformErr < 0 then
    { calls := [ApiCall.getPlatformIDs], exited := true, gotDevice := false }
  else
    if o.gpuErr = CL_DEVICE_NOT_FOUND then
      if o.cpuErr < 0 then
        { calls := [ApiCall.getPlatformIDs, ApiCall.getDeviceIDsGPU, ApiCall.getDeviceIDsCPU],
          exited := true, gotDevice := false }
      else
        { calls := [ApiCall.getPlatformIDs, ApiCall.getDeviceIDsGPU, ApiCall.getDeviceIDsCPU],
          exited := false, gotDevice := true }
    else
      if o.gpuErr < 0 then
        { calls := [ApiCall.getPlatformIDs, ApiCall.getDeviceIDsGPU],
          exited := true, gotDevice := false }
      else
        { calls := [ApiCall.getPlatformIDs, ApiCall.getDeviceIDsGPU],
          exited := false, gotDevice := true }

/-- Embedding of `copy_kernel_args` (source lines 117 to 128).  The four
`clSetKernelArg` calls are issued but the source discards their return
values; the guard then tests the global `err`, whose value is whatever the
last assignment to it left there (on the path `main` takes, the result of
`clBuildProgram`).  Returns whether the fatal branch (exit code 1) is
taken. -/
def copy_kernel_args (errGlobal : Int) (setArgErr : Fin 4 → Int) : Bool :=
  let _r0 := setArgErr 0
  let _r1 := setArgErr 1
  let _r2 := setArgErr 2
  let _r3 := setArgErr 3
  decide (errGlobal < 0)

/-- The error conditions the spec says the buffer phase signals. -/
inductive MemSignal
  | bufferAllocationError
  | transferError
deriving DecidableEq

/-- Embedding of `setup_kernel_memory` (source lines 131 to 140).  The three
`clCreateBuffer` calls pass NULL as the error code output, so `allocErr i`
is discarded; the two `clEnqueueWriteBuffer` return values are likewise
discarded.  Returns the list of error signals raised (none) and whether the
process exits (it does not). -/
def setup_kernel_memory (allocErr : Fin 3 → Int) (writeErr : Fin 2 → Int) :
    List MemSignal × Bool :=
  let _a0 := allocErr 0
  let _a1 := allocErr 1
  let _a2 := allocErr 2
  let _w0 := writeErr 0
  let _w1 := writeErr 1
  ([], false)

/-- The ten resources the program allocates and `free_memory` releases:
three device buffers, the kernel, the command queue, the program, the
context, and the three host vectors. -/
inductive Res
  | bufV1
  | bufV2
  | bufV_out
  | kern
  | cmdQueue
  | prog
  | ctx
  | hostV1
  | hostV2
  | hostV_out
deriving DecidableEq

/-- Oracle for every checked or unchecked external result along the setup
path of one run. -/
structure LifecycleOracle where
  platformErr : Int
  gpuErr : Int
  cpuErr : Int
  ctxErr : Int
  sourceFound : Bool
  progCreateErr : Int
  buildErr : Int
  queueErr : Int
  kernErr : Int
  allocOk : Fin 3 → Bool

/-- Outcome of one run for resource accounting: the resources whose creation
succeeded, the resources the program attempts to release, and whether the
run aborted via `exit(1)`. -/
structure LifecycleResult where
  created : List Res
  released : List Res
  exited : Bool

/-- Embedding of `free_memory` (source lines 99 to 114): the release calls
it issues, unconditionally and in source order -- the three device buffers,
the kernel, the queue, the program, the context, then the three host
vectors. -/
def free_memory : List Res :=
  [Res.bufV1, Res.bufV2, Res.bufV_out, Res.kern, Res.cmdQueue, Res.prog,
   Res.ctx, Res.hostV1, Res.hostV2, Res.hostV_out]

/-- Embedding of `setup_openCL_device_context_queue_kernel` together with
`build_program` (source lines 143 to 211): the resources created by the
setup phase and whether it aborted with `exit(1)`.  Each checked failure
exits immediately, releasing nothing; the program object created by
`clCreateProgramWithSource` exists already when `clBuildProgram` fails. -/
def setup_openCL_device_context_queue_kernel (o : LifecycleOracle) :
    List Res × Bool :=
  let dev := create_device
    { platformErr := o.platformErr, gpuErr := o.gpuErr, cpuErr := o.cpuErr }
  if dev.exited then ([], true)
  else if o.ctxErr < 0 then ([], true)
  else if o.sourceFound then
    if o.progCreateErr < 0 then ([Res.ctx], true)
    else if o.buildErr < 0 then ([Res.ctx, Res.prog], true)
    else if o.queueErr < 0 then ([Res.ctx, Res.prog], true)
    else if o.kernErr < 0 then ([Res.ctx, Res.prog, Res.cmdQueue], true)
    else ([Res.ctx, Res.prog, Res.cmdQueue, Res.kern], false)
  else ([Res.ctx], true)

/-- The device buffers `setup_kernel_memory` successfully creates, given
which of the three unchecked `clCreateBuffer` calls succeed. -/
def setup_kernel_memory_created (o : LifecycleOracle) : List Res :=
  (if o.allocOk 0 then [Res.bufV1] else [])
    ++ (if o.allocOk 1 then [Res.bufV2] else [])
    ++ (if o.allocOk 2 then [Res.bufV_out] else [])

/-- Resource accounting for one whole run of `main`: the three host vectors
are allocated first, then setup runs (aborting on any checked failure with
nothing released), then the buffers are created (failures unchecked, the
run continues regardless), and the completing run ends in `free_memory`,
which releases all ten resources unconditionally. -/
def runLifecycle (o : LifecycleOracle) : LifecycleResult :=
  if (setup_openCL_device_context_queue_kernel o).2 then
    { created := [Res.hostV1, Res.hostV2, Res.hostV_out]
        ++ (setup_openCL_device_context_queue_kernel o).1,
      released := [], exited := true }
  else
    { created := [Res.hostV1, Res.hostV2, Res.hostV_out]
        ++ (setup_openCL_device_context_queue_kernel o).1
        ++ setup_kernel_memory_created o,
      released := free_memory, exited := false }

/-- Whether a character is C whitespace, as `atoi` skips it. -/
def isSpaceC (c : Char) : Bool :=
  c = ' ' || c = '\t' || c = '\n' || c = '\x0b' || c = '\x0c' || c = '\r'

/-- The digit-consuming loop of C `atoi`: accumulate decimal digits until the
first non-digit character. -/
def atoiLoop : List Char → Int → Int
  | [], acc => acc
  | c :: cs, acc =>
      if c.isDigit then atoiLoop cs (acc * 10 + (c.toNat - 48 : Nat)) else acc

/-- Embedding of the C library `atoi` applied to `argv[1]` (source line 33):
skip leading whitespace, consume an optional sign, then consume decimal
digits; with no leading digits the result is 0.  Overflow is not modelled
(C leaves it undefined). -/
def atoi (s : List Char) : Int :=
  match s.dropWhile isSpaceC with
  | [] => 0
  | c :: rest =>
      if c = '-' then - atoiLoop rest 0
      else if c = '+' then atoiLoop rest 0
      else atoiLoop (c :: rest) 0

/-- The default vector size `SZ` (source line 8). -/
def defaultSZ : Int := 100000000

/-- The size `SZ` after command line handling in `main` (source lines 31 to
34): `argv[1]` parsed with `atoi` when present, otherwise the default. -/
def mainSZ (args : List (List Char)) : Int :=
  match args with
  | [] => defaultSZ
  | a :: _ => atoi a

/-- The size-derived quantities `main` computes from `SZ` with no
validation: the `size` argument passed to each `init` call, the byte count
each `malloc` receives, the number of loop iterations in `init`, the byte
size of each device buffer, and the global work size `(size_t)SZ`. -/
structure MainConfig where
  sz : Int
  initSizeArg : Int
  hostBytesEach : Nat
  initLoopLen : Nat
  bufBytesEach : Nat
  globalWorkSize : Nat
deriving DecidableEq

/-- The configuration `main` derives from its command line. -/
def mainConfig (args : List (List Char)) : MainConfig :=
  let sz := mainSZ args
  { sz := sz
  , initSizeArg := sz
  , hostBytesEach := hostAllocBytes sz
  , initLoopLen := sz.toNat
  , bufBytesEach := bufferByteSize sz
  , globalWorkSize := toSizeT sz }

/-- The C library pseudo-random generator as a pure stream: `randStream s k`
is the value of the k-th `rand()` call when the seed is `s`.  The stream for
a fixed seed is a deterministic function; `srand` chooses the seed, and a
program that never calls `srand` draws from seed 1 (the C default). -/
structure LibC where
  randStream : Nat → Nat → Nat

/-- The seed in effect when `srand` is never called (C standard). -/
def defaultSeed : Nat := 1

/-- Per-run data the environment could vary between two runs of the process:
the wall clock at process start.  The program reads no entropy source and
never calls `srand`, so nothing here feeds the computation. -/
structure RunEnv where
  wallClock : Nat

/-- Embedding of `init` (source lines 68 to 74): allocate, then set
`A[i] = rand() % 100` for i from 0 while i < size (no iterations when size
is not positive).  `pos` is the number of `rand()` calls made so far; the
updated count is returned with the vector. -/
def init (libc : LibC) (seed : Nat) (pos : Nat) (size : Int) :
    List Int × Nat :=
  (((List.range size.toNat).map fun i =>
      ((libc.randStream seed (pos + i) % 100 : Nat) : Int)),
   pos + size.toNat)

/-- The data a completed run computes and prints. -/
structure RunOutput where
  v1 : List Int
  v2 : List Int
  v_out : List Int
deriving DecidableEq

/-- The data flow of `main` (source lines 31 to 65) for a run with size
`sz`: the three vectors are filled by consecutive `rand()` draws from the
default-seeded stream (`srand` is never called), and the output vector is
produced by upload, dispatch over `(size_t)sz` work items, wait, and
readback.  The run environment `env` is taken as a parameter to record that
no part of the computation reads it. -/
def runMainData (libc : LibC) (env : RunEnv) (sz : Int) : RunOutput :=
  let r1 := init libc defaultSeed 0 sz
  let r2 := init libc defaultSeed r1.2 sz
  let _r3 := init libc defaultSeed r2.2 sz
  let global := toSizeT sz
  { v1 := r1.1, v2 := r2.1, v_out := computePhase r1.1 r2.1 global }

/-- The elapsed value printed by `main` line 63: the clock interval converted
to milliseconds (chrono duration with a double millisecond representation,
modelled exactly over the rationals), given start and stop times in
nanoseconds. -/
def elapsed_ms (startNs stopNs : Nat) : ℚ :=
  ((stopNs : ℚ) - (startNs : ℚ)) / 1000000

/-- C1: for every N at least 1 and all integer input vectors A and B of
length N, after the kernel dispatch, the completion wait and the device to
host readback, the output vector satisfies out[i] = A[i] + B[i] for every
i below N. -/
theorem c1_vector_add_correct (n : Nat) (A B : List Int)
    (hn : 1 ≤ n) (hA : A.length = n) (hB : B.length = n) :
    ∀ i, i < n → (computePhase A B n).getD i 0 = A.getD i 0 + B.getD i 0 := by
  intro i hi
  simp [computePhase, vector_add_ocl, List.getD_eq_getElem?_getD,
    List.getElem?_map, List.getElem?_range, hi]

/-- Witness for C1 at N = 3, A = [3, 5, 7], B = [10, 20, 30], i = 1. -/
theorem c1_vector_add_correct_witness :
    (computePhase [3, 5, 7] [10, 20, 30] 3).getD 1 0
      = ([3, 5, 7] : List Int).getD 1 0 + ([10, 20, 30] : List Int).getD 1 0 :=
  c1_vector_add_correct 3 [3, 5, 7] [10, 20, 30]
    (by decide) (by decide) (by decide) 1 (by decide)

/-- C2 counterexample: the console printing of the output vector is one of
the events strictly between the timer start and the timer stop, so the
measured interval does not exclude all console printing. -/
theorem c2_counterexample :
    Ev.printOut ∈ timedSegment mainTrace ∧ isPrintEvent Ev.printOut = true := by
  decide

/-- C2 amended: the measured interval consists of exactly the kernel
dispatch, the completion wait, the device to host readback, and the console
printing of the output vector; host-side setup events, the two input vector
prints, and the elapsed time printout all lie outside it. -/
theorem c2_timed_segment :
    timedSegment mainTrace = [Ev.dispatch, Ev.waitEv, Ev.readback, Ev.printOut]
      ∧ (timedSegment mainTrace).filter isSetupEvent = []
      ∧ (timedSegment mainTrace).count Ev.printV1 = 0
      ∧ (timedSegment mainTrace).count Ev.printV2 = 0
      ∧ (timedSegment mainTrace).count Ev.printTime = 0 := by
  decide

/-- C3: evaluation of `copy_kernel_args` at the failing input.  On the path
`main` takes, the global err holds the nonnegative result of a successful
`clBuildProgram`; when `clSetKernelArg` for argument 1 fails with
`CL_INVALID_MEM_OBJECT`, the return value is discarded, the guard tests the
stale global err, and the fatal branch is not taken -- contradicting the
claimed detection, diagnostic and exit code 1. -/
theorem c3_binding_failure_not_detected :
    copy_kernel_args CL_SUCCESS
        (fun i => if i = 1 then CL_INVALID_MEM_OBJECT else CL_SUCCESS)
      = false := by
  decide

/-- C6 counterexample: with the first `clCreateBuffer` reporting
`CL_MEM_OBJECT_ALLOCATION_FAILURE` and the first `clEnqueueWriteBuffer`
reporting `CL_INVALID_MEM_OBJECT`, `setup_kernel_memory` raises no signal at
all and does not exit, so neither BufferAllocationError nor TransferError is
surfaced. -/
theorem c6_counterexample :
    setup_kernel_memory
        (fun i => if i = 0 then CL_MEM_OBJECT_ALLOCATION_FAILURE else CL_SUCCESS)
        (fun j => if j = 0 then CL_INVALID_MEM_OBJECT else CL_SUCCESS)
      = ([], false) := by
  decide

/-- C6 amended: whatever results the three buffer allocations and the two
host to device transfers report, `setup_kernel_memory` signals nothing and
never exits: `clCreateBuffer` is called with a null error code output and
the `clEnqueueWriteBuffer` return values are discarded. -/
theorem c6_failures_silently_ignored (allocErr : Fin 3 → Int)
    (writeErr : Fin 2 → Int) :
    setup_kernel_memory allocErr writeErr = ([], false) := rfl

/-- C7: when a printed vector is longer than 15, exactly its first 5 and
last 5 elements are printed joined by an ellipsis marker, otherwise all of
its elements are printed; in the main trace, the elapsed time printout (the
value in milliseconds, `elapsed_ms`, scaled from the nanosecond interval)
follows the three vector prints. -/
theorem c7_print_truncation (A : List Int) (sz : Int) (hsz : sz = A.length) :
    (15 < sz →
      print A sz
        = (A.take 5).map PrintItem.elem ++ [PrintItem.ellipsis]
            ++ (A.drop (A.length - 5)).map PrintItem.elem)
    ∧ (sz ≤ 15 → print A sz = A.map PrintItem.elem)
    ∧ mainTrace.indexOf Ev.printV1 < mainTrace.indexOf Ev.printTime
    ∧ mainTrace.indexOf Ev.printV2 < mainTrace.indexOf Ev.printTime
    ∧ mainTrace.indexOf Ev.printOut < mainTrace.indexOf Ev.printTime
    ∧ (∀ s t : Nat, elapsed_ms s t * 1000000 = (t : ℚ) - (s : ℚ)) := by
  refine ⟨?_, ?_, by decide, by decide, by decide, ?_⟩
  · intro h
    have hlen : 15 < A.length := by exact_mod_cast hsz ▸ h
    unfold print
    rw [if_pos h]
    have hfront := range_map_getD_take A 5 (by omega)
    have hmid : ∀ i ∈ List.range 5,
        PrintItem.elem (A.getD (sz - 5 + (i : Int)).toNat 0)
          = PrintItem.elem (A.getD (A.length - 5 + i) 0) := by
      intro i hi
      have hi5 : i < 5 := List.mem_range.mp hi
      have : (sz - 5 + (i : Int)).toNat = A.length - 5 + i := by omega
      rw [this]
    rw [hfront, List.map_congr_left hmid, range_map_getD_drop A 5 (by omega)]
  · intro h
    have hlen : A.length ≤ 15 := by exact_mod_cast hsz ▸ h
    unfold print
    rw [if_neg (by omega)]
    have hton : sz.toNat = A.length := by omega
    rw [hton]
    have := range_map_getD_take A A.length (le_refl _)
    rwa [List.take_length] at this
  · intro s t
    unfold elapsed_ms
    ring

/-- Witness for C7 at the 20 element vector [0, 1, ..., 19]. -/
theorem c7_print_truncation_witness :
    print ((List.range 20).map Int.ofNat) 20
      = (((List.range 20).map Int.ofNat).take 5).map PrintItem.elem
          ++ [PrintItem.ellipsis]
          ++ (((List.range 20).map Int.ofNat).drop
                (((List.range 20).map Int.ofNat).length - 5)).map PrintItem.elem :=
  (c7_print_truncation ((List.range 20).map Int.ofNat) 20 (by decide)).1 (by decide)

/-- C4: device selection requests a GPU device first; a CPU device is
requested if and only if the GPU request reports `CL_DEVICE_NOT_FOUND`,
exactly once and only after the GPU request; and when neither request
yields a device the program exits fatally instead of proceeding. -/
theorem c4_device_fallback (o : DeviceOracle) (hp : 0 ≤ o.platformErr) :
    ((create_device o).calls.count ApiCall.getDeviceIDsCPU
        = if o.gpuErr = CL_DEVICE_NOT_FOUND then 1 else 0)
    ∧ (ApiCall.getDeviceIDsCPU ∈ (create_device o).calls →
        (create_device o).calls
          = [ApiCall.getPlatformIDs, ApiCall.getDeviceIDsGPU,
             ApiCall.getDeviceIDsCPU])
    ∧ (o.gpuErr = CL_DEVICE_NOT_FOUND → o.cpuErr < 0 →
        (create_device o).exited = true ∧ (create_device o).gotDevice = false)
    ∧ (o.gpuErr < 0 → o.gpuErr ≠ CL_DEVICE_NOT_FOUND →
        (create_device o).exited = true ∧ (create_device o).gotDevice = false) := by
  have hplat : ¬ o.platformErr < 0 := by omega
  by_cases hg : o.gpuErr = CL_DEVICE_NOT_FOUND
  · by_cases hc : o.cpuErr < 0
    · simp [create_device, hplat, hg, hc]
    · simp [create_device, hplat, hg, hc]
  · by_cases hge : o.gpuErr < 0
    · simp [create_device, hplat, hg, hge]
    · simp [create_device, hplat, hg, hge]

/-- Witness for C4 at the oracle where the GPU request reports
`CL_DEVICE_NOT_FOUND` and the CPU request also fails: the CPU request is
issued exactly once and the program exits fatally. -/
theorem c4_device_fallback_witness :
    ((create_device { platformErr := 0, gpuErr := -1, cpuErr := -2 }).calls.count
        ApiCall.getDeviceIDsCPU
      = if (-1 : Int) = CL_DEVICE_NOT_FOUND then 1 else 0)
    ∧ (create_device { platformErr := 0, gpuErr := -1, cpuErr := -2 }).exited
        = true :=
  ⟨(c4_device_fallback { platformErr := 0, gpuErr := -1, cpuErr := -2 }
      (by norm_num)).1,
   ((c4_device_fallback { platformErr := 0, gpuErr := -1, cpuErr := -2 }
      (by norm_num)).2.2.1 (by decide) (by norm_num)).1⟩

theorem setup_created_of_not_exited (o : LifecycleOracle)
    (h : (setup_openCL_device_context_queue_kernel o).2 = false) :
    (setup_openCL_device_context_queue_kernel o).1
      = [Res.ctx, Res.prog, Res.cmdQueue, Res.kern] := by
  unfold setup_openCL_device_context_queue_kernel at h ⊢
  by_cases h1 : (create_device
      { platformErr := o.platformErr, gpuErr := o.gpuErr,
        cpuErr := o.cpuErr }).exited <;>
    by_cases h2 : o.ctxErr < 0 <;>
      by_cases h3 : o.sourceFound <;>
        by_cases h4 : o.progCreateErr < 0 <;>
          by_cases h5 : o.buildErr < 0 <;>
            by_cases h6 : o.queueErr < 0 <;>
              by_cases h7 : o.kernErr < 0 <;>
                simp_all <;>
                  (repeat' rw [if_neg (by omega)])

/-- C5 counterexample: with every checked setup step succeeding but the
first `clCreateBuffer` failing (the failure is unchecked), the run completes
and `free_memory` releases the first device buffer even though its creation
failed, on a failure path. -/
theorem c5_counterexample :
    Res.bufV1 ∈ (runLifecycle
        { platformErr := 0, gpuErr := 0, cpuErr := 0, ctxErr := 0,
          sourceFound := true, progCreateErr := 0, buildErr := 0,
          queueErr := 0, kernErr := 0,
          allocOk := fun i => decide (i ≠ 0) }).released
    ∧ (runLifecycle
        { platformErr := 0, gpuErr := 0, cpuErr := 0, ctxErr := 0,
          sourceFound := true, progCreateErr := 0, buildErr := 0,
          queueErr := 0, kernErr := 0,
          allocOk := fun i => decide (i ≠ 0) }).created.count Res.bufV1 = 0 := by
  decide

/-- C5 amended: on every aborted setup path nothing at all is released (so
no resource is released twice and no failed resource is released, though
successfully created resources are then not released either); a completing
run releases each of the ten resources exactly once, and when the three
unchecked buffer allocations all succeed every released resource was
successfully created. -/
theorem c5_teardown (o : LifecycleOracle) :
    ((runLifecycle o).exited = true → (runLifecycle o).released = [])
    ∧ ((runLifecycle o).exited = false →
        (∀ r : Res, (runLifecycle o).released.count r = 1)
        ∧ ((∀ i, o.allocOk i = true) →
            ∀ r ∈ (runLifecycle o).released, r ∈ (runLifecycle o).created)) := by
  by_cases h : (setup_openCL_device_context_queue_kernel o).2
  · refine ⟨fun _ => ?_, fun hfalse => ?_⟩
    · simp [runLifecycle, h]
    · exfalso
      simp [runLifecycle, h] at hfalse
  · refine ⟨fun htrue => ?_, fun _ => ⟨fun r => ?_, fun hA r hr => ?_⟩⟩
    · exfalso
      simp [runLifecycle, h] at htrue
    · simp only [runLifecycle, h, if_false]
      cases r <;> rfl
    · have hc := setup_created_of_not_exited o (by simpa using h)
      have hm : setup_kernel_memory_created o
          = [Res.bufV1, Res.bufV2, Res.bufV_out] := by
        unfold setup_kernel_memory_created
        simp [hA 0, hA 1, hA 2]
      simp [runLifecycle, h, free_memory, hc, hm] at hr ⊢
      tauto

/-- Witness for C5 at the all-success oracle: the kernel handle is released
exactly once and was successfully created. -/
theorem c5_teardown_witness :
    (runLifecycle
        { platformErr := 0, gpuErr := 0, cpuErr := 0, ctxErr := 0,
          sourceFound := true, progCreateErr := 0, buildErr := 0,
          queueErr := 0, kernErr := 0, allocOk := fun _ => true }).released.count
        Res.kern = 1
    ∧ Res.kern ∈ (runLifecycle
        { platformErr := 0, gpuErr := 0, cpuErr := 0, ctxErr := 0,
          sourceFound := true, progCreateErr := 0, buildErr := 0,
          queueErr := 0, kernErr := 0, allocOk := fun _ => true }).created :=
  ⟨((c5_teardown _).2 (by decide)).1 Res.kern,
   ((c5_teardown
      { platformErr := 0, gpuErr := 0, cpuErr := 0, ctxErr := 0,
        sourceFound := true, progCreateErr := 0, buildErr := 0,
        queueErr := 0, kernErr := 0, allocOk := fun _ => true }).2
      (by decide)).2 (fun i => rfl) Res.kern (by decide)⟩

/-- C8: every device buffer byte size is exactly N times the element size
and equals the paired host vector allocation size; and a run with N = 0 is
not rejected and completes as a no-op, with every vector empty and zero
work items dispatched. -/
theorem c8_buffer_sizes (n : Int) (h0 : 0 ≤ n) (h1 : n < 2 ^ 31) :
    (bufferByteSize n = n.toNat * sizeof_int
      ∧ hostAllocBytes n = bufferByteSize n)
    ∧ (toSizeT 0 = 0
      ∧ ∀ (libc : LibC) (env : RunEnv),
          runMainData libc env 0 = { v1 := [], v2 := [], v_out := [] }) := by
  have hsz : toSizeT n = n.toNat := by
    unfold toSizeT
    rw [Int.emod_eq_of_lt h0 (by norm_num; omega)]
  refine ⟨⟨?_, ?_⟩, rfl, fun libc env => rfl⟩
  · unfold bufferByteSize sizeof_int
    rw [hsz]
    have : n.toNat < 2 ^ 31 := by omega
    rw [Nat.mod_eq_of_lt (by norm_num; omega)]
  · unfold hostAllocBytes bufferByteSize sizeof_int
    rw [Nat.mul_comm]

/-- Witness for C8 at N = 10. -/
theorem c8_buffer_sizes_witness :
    (bufferByteSize 10 = (10 : Int).toNat * sizeof_int
      ∧ hostAllocBytes 10 = bufferByteSize 10)
    ∧ (toSizeT 0 = 0
      ∧ ∀ (libc : LibC) (env : RunEnv),
          runMainData libc env 0 = { v1 := [], v2 := [], v_out := [] }) :=
  c8_buffer_sizes 10 (by norm_num) (by norm_num)

theorem atoiLoop_nondigit (d : Char) (ds : List Char) (acc : Int)
    (h : d.isDigit = false) : atoiLoop (d :: ds) acc = acc := by
  unfold atoiLoop
  rw [h]
  rfl

/-- Whether the command line argument, after whitespace skipping and an
optional sign, does not begin with a decimal digit, so that it does not
parse as a decimal integer. -/
def noLeadingDigit (s : List Char) : Bool :=
  match s.dropWhile isSpaceC with
  | [] => true
  | c :: rest =>
      if c = '-' || c = '+' then
        match rest with
        | [] => true
        | d :: _ => !d.isDigit
      else !c.isDigit

/-- C9: when the optional argument does not parse as a decimal integer the
program runs with N = 0 (the atoi result), and a negative parsed value such
as -7 is accepted with no validation: it is passed as the size to all three
init calls, sized into the host allocations, the device buffer allocations
and the global work size of the dispatch (the last three through the int to
size_t conversion, yielding enormous unsigned values). -/
theorem c9_size_parsing (s : List Char) (hs : noLeadingDigit s = true) :
    mainSZ [s] = 0
    ∧ mainConfig [['-', '7']]
        = { sz := -7, initSizeArg := -7,
            hostBytesEach := 2 ^ 64 - 28, initLoopLen := 0,
            bufBytesEach := 2 ^ 64 - 28,
            globalWorkSize := 2 ^ 64 - 7 } := by
  constructor
  · show atoi s = 0
    unfold atoi
    unfold noLeadingDigit at hs
    cases hd : s.dropWhile isSpaceC with
    | nil => rfl
    | cons c rest =>
        rw [hd] at hs
        dsimp only at hs ⊢
        by_cases hneg : c = '-'
        · rw [if_pos hneg]
          rw [if_pos (by simp [hneg])] at hs
          cases rest with
          | nil => simp [atoiLoop]
          | cons d ds =>
              dsimp only at hs
              simp only [Bool.not_eq_true'] at hs
              simp [atoiLoop_nondigit d ds 0 hs]
        · by_cases hpos : c = '+'
          · rw [if_neg hneg, if_pos hpos]
            rw [if_pos (by simp [hpos])] at hs
            cases rest with
            | nil => rfl
            | cons d ds =>
                dsimp only at hs
                simp only [Bool.not_eq_true'] at hs
                exact atoiLoop_nondigit d ds 0 hs
          · rw [if_neg hneg, if_neg hpos]
            rw [if_neg (by simp [hneg, hpos])] at hs
            simp only [Bool.not_eq_true'] at hs
            exact atoiLoop_nondigit c rest 0 hs
  · decide

/-- Witness for C9 at the non-numeric argument xyz. -/
theorem c9_size_parsing_witness : mainSZ [['x', 'y', 'z']] = 0 :=
  (c9_size_parsing ['x', 'y', 'z'] (by decide)).1

/-- C10: two runs with equal length N produce identical input vectors and
identical output vectors whatever else differs in the run environments,
because srand is never called (both runs draw from the default seed 1
stream), and each element is the next rand() value modulo 100, drawn in the
same order (the first N draws fill v1, the next N fill v2). -/
theorem c10_unseeded_determinism (libc : LibC) (e1 e2 : RunEnv) (sz : Int) :
    runMainData libc e1 sz = runMainData libc e2 sz
    ∧ (∀ i, i < sz.toNat →
        (runMainData libc e1 sz).v1.getD i 0
          = ((libc.randStream defaultSeed i % 100 : Nat) : Int)
        ∧ (runMainData libc e1 sz).v2.getD i 0
          = ((libc.randStream defaultSeed (sz.toNat + i) % 100 : Nat) : Int)) := by
  refine ⟨rfl, fun i hi => ⟨?_, ?_⟩⟩ <;>
    simp [runMainData, init, List.getD_eq_getElem?_getD, List.getElem?_map,
      List.getElem?_range, hi]

/-- Witness for C10 with the stream s k = s + k and run environments whose
wall clocks differ. -/
theorem c10_unseeded_determinism_witness :
    runMainData { randStream := fun s k => s + k } { wallClock := 0 } 2
      = runMainData { randStream := fun s k => s + k } { wallClock := 12345 } 2
    ∧ (runMainData { randStream := fun s k => s + k } { wallClock := 0 } 2).v1.getD
        1 0 = (((1 + 1) % 100 : Nat) : Int) :=
  ⟨(c10_unseeded_determinism { randStream := fun s k => s + k }
      { wallClock := 0 } { wallClock := 12345 } 2).1,
   ((c10_unseeded_determinism { randStream := fun s k => s + k }
      { wallClock := 0 } { wallClock := 12345 } 2).2 1 (by decide)).1⟩

end OpenCLMatrixAdd
